import Mathlib

/-!
Verification of the PoloDB storage-backend layer: a shallow embedding of the
memory backend, the file backend (journal gating, open/version checking) and
the IndexedDB backend, together with theorems about page round-trips, session
isolation, zero-fill reads, transaction discipline, rollback, checkpoint
gating, version checking, database-size handling, store-frame encoding and
read-to-write upgrades.

Machine integers are modelled as `Nat` (no arithmetic in the backend layer
overflows in practice and none of the verified properties depends on wrap-
around).  Fallible operations return `Except DbErr`; a Rust `panic!`,
`unreachable!`, `unwrap` or `expect` is modelled as a distinguished `DbErr`
outcome so that the embedding stays total and executable.
-/

deriving instance DecidableEq for Except

/-! ## Ordered association lists

`im::OrdMap` (used for snapshot pages, draft overlays and dirty-page sets) is
modelled as an association list kept sorted by key; `hashbrown::HashMap`
(session tables) is modelled with the same operations (its iteration order is
never observed by the verified code paths). -/

/-- Lookup in an association list keyed by `Nat` (first match). -/
def alLookup {α : Type} : List (Nat × α) → Nat → Option α
  | [], _ => none
  | (k, v) :: rest, key => if key = k then some v else alLookup rest key

/-- Insert (or replace) a binding, keeping keys in ascending order. -/
def alInsert {α : Type} : List (Nat × α) → Nat → α → List (Nat × α)
  | [], k, v => [(k, v)]
  | (k', v') :: rest, k, v =>
    if k < k' then (k, v) :: (k', v') :: rest
    else if k = k' then (k, v) :: rest
    else (k', v') :: alInsert rest k v

/-- Remove the bindings for a key. -/
def alRemove {α : Type} : List (Nat × α) → Nat → List (Nat × α)
  | [], _ => []
  | (k', v') :: rest, k =>
    if k = k' then alRemove rest k else (k', v') :: alRemove rest k

/-- Right-biased union: every binding of `overlay` is inserted into `base`,
so `overlay` wins on key clashes (`base.pages ⊕ overlay`). -/
def alUnion {α : Type} : List (Nat × α) → List (Nat × α) → List (Nat × α)
  | base, [] => base
  | base, (k, v) :: rest => alUnion (alInsert base k v) rest

/-- The keys of an association list. -/
def alKeys {α : Type} (m : List (Nat × α)) : List Nat := m.map Prod.fst

/-- Keys strictly ascending (the `im::OrdMap` representation invariant). -/
def alSorted {α : Type} (m : List (Nat × α)) : Prop :=
  List.Pairwise (· < ·) (alKeys m)

/-- Overwrite the bytes of `l` starting at offset `off` with `bs`; bytes that
would fall beyond the end of `l` are dropped (the buffer is not extended). -/
def setBytes : List Nat → Nat → List Nat → List Nat
  | [], _, _ => []
  | x :: xs, 0, [] => x :: xs
  | _ :: xs, 0, b :: bs => b :: setBytes xs 0 bs
  | x :: xs, n + 1, bs => x :: setBytes xs n bs

/-! ## Core data model -/

/-- `TransactionType` from `polodb_core::transaction`. -/
inductive TransactionType where
  | read
  | write
deriving DecidableEq

/-- The error kinds of `DbErr` that the backend layer can surface, plus
distinguished outcomes for Rust panics (`unreachable!`, `unwrap`/`expect` on
`None`), which abort rather than return in the source. -/
inductive DbErr where
  | DatabaseOccupied
  | NotAValidDatabase
  | VersionMismatch (expect_version actual_version : List Nat)
  | InvalidSession (sid : Nat)
  | CannotWriteDbWithoutTransaction
  | RollbackNotInTransaction
  | Busy
  | IOError
  | PanicPageNotExist (page_id : Nat)
  | PanicUnreachable
  | PanicUnwrapNone
deriving DecidableEq

/-- Modelled from the spec: `RawPage` (not under `src/`) is a fixed-width
byte buffer of length `page_size` tagged with a 32-bit page id; bytes are
modelled as `Nat`. -/
structure RawPage where
  page_id : Nat
  data : List Nat
deriving DecidableEq

/-- Modelled from the spec: `RawPage::new` allocates a zero-filled page of
`page_size` bytes. -/
def RawPage.new (page_id page_size : Nat) : RawPage :=
  { page_id := page_id, data := List.replicate page_size 0 }

/-- `Config` from `polodb_core::config`. -/
structure Config where
  init_block_count : Nat
  journal_full_size : Nat
  check_db_version : Bool
deriving DecidableEq

/-- `Config::default()`. -/
def Config.default : Config :=
  { init_block_count := 16, journal_full_size := 1000, check_db_version := true }

/-- Modelled from the spec: the library's expected 4-byte database version
(`DATABASE_VERSION` lives in `header_page_wrapper`, not under `src/`); the
concrete value is representative, only the comparison against it matters. -/
def DATABASE_VERSION : List Nat := [0, 0, 0, 1]

/-- Modelled from the spec: `HeaderPageWrapper::init` (not under `src/`)
produces the header page: page 0, zero-filled, with the 4-byte database
version at offset 32. -/
def HeaderPageWrapper.init (page_id page_size : Nat) : RawPage :=
  { page_id := page_id
    data := setBytes (List.replicate page_size 0) 32 DATABASE_VERSION }

/-! ## Memory backend: snapshot and draft -/

/-- Modelled from the spec: `DbSnapshot` (not under `src/`) is an immutable
persistent map from page id to page image plus the recorded logical database
size and the page size. -/
structure DbSnapshot where
  page_size : Nat
  db_file_size : Nat
  pages : List (Nat × RawPage)
deriving DecidableEq

/-- Modelled from the spec: a fresh snapshot holds no pages. -/
def DbSnapshot.new (page_size data_len : Nat) : DbSnapshot :=
  { page_size := page_size, db_file_size := data_len, pages := [] }

/-- Modelled from the spec: snapshot reads look the page id up in the map. -/
def DbSnapshot.read_page (s : DbSnapshot) (page_id : Nat) : Option RawPage :=
  alLookup s.pages page_id

/-- Modelled from the spec: `DbSnapshotDraft` (not under `src/`) layers a
mutable overlay of pending writes over an immutable base snapshot and keeps
its own pending database size. -/
structure DbSnapshotDraft where
  base : DbSnapshot
  overlay : List (Nat × RawPage)
  db_file_size : Nat
deriving DecidableEq

/-- Modelled from the spec: a new draft starts with an empty overlay and the
base snapshot's database size. -/
def DbSnapshotDraft.new (snapshot : DbSnapshot) : DbSnapshotDraft :=
  { base := snapshot, overlay := [], db_file_size := snapshot.db_file_size }

/-- Modelled from the spec: draft reads consult the overlay, then the base. -/
def DbSnapshotDraft.read_page (d : DbSnapshotDraft) (page_id : Nat) : Option RawPage :=
  match alLookup d.overlay page_id with
  | some p => some p
  | none => d.base.read_page page_id

/-- Modelled from the spec: draft writes insert into the overlay. -/
def DbSnapshotDraft.write_page (d : DbSnapshotDraft) (page : RawPage) : DbSnapshotDraft :=
  { d with overlay := alInsert d.overlay page.page_id page }

/-- Modelled from the spec: adjust the draft's pending database size. -/
def DbSnapshotDraft.set_db_file_size (d : DbSnapshotDraft) (size : Nat) : DbSnapshotDraft :=
  { d with db_file_size := size }

/-- Modelled from the spec: `draft.commit()` merges the overlay into the base
(`new_snapshot.pages = base.pages ⊕ overlay`) and returns the new snapshot
together with the overlay as the dirty-page set. -/
def DbSnapshotDraft.commitDraft (d : DbSnapshotDraft) :
    DbSnapshot × List (Nat × RawPage) :=
  ({ page_size := d.base.page_size
     db_file_size := d.db_file_size
     pages := alUnion d.base.pages d.overlay }, d.overlay)

/-! ## Memory backend -/

/-- `Transaction` from `memory_backend.rs`. -/
structure Transaction where
  ty : TransactionType
  draft : DbSnapshotDraft
  dirty_pages : List (Nat × RawPage)
deriving DecidableEq

/-- `Transaction::new`. -/
def Transaction.new (ty : TransactionType) (snapshot : DbSnapshot) : Transaction :=
  { ty := ty, draft := DbSnapshotDraft.new snapshot, dirty_pages := [] }

/-- `MemoryBackendInner` from `memory_backend.rs`: session ids (`ObjectId`)
are modelled as `Nat`. -/
structure MemoryBackendInner where
  page_size : Nat
  snapshot : DbSnapshot
  transaction : Option Transaction
  state_map : List (Nat × Transaction)
deriving DecidableEq

/-- `MemoryBackendInner::force_write_first_block`: write the header page into
a draft over the given snapshot and commit it. -/
def MemoryBackendInner.force_write_first_block (snapshot : DbSnapshot)
    (page_size : Nat) : DbSnapshot :=
  let wrapper := HeaderPageWrapper.init 0 page_size
  let snapshot_draft := (DbSnapshotDraft.new snapshot).write_page wrapper
  (snapshot_draft.commitDraft).1

/-- `MemoryBackendInner::new`. -/
def MemoryBackendInner.new (page_size init_block_count : Nat) : MemoryBackendInner :=
  let data_len := init_block_count * page_size
  let snapshot := MemoryBackendInner.force_write_first_block
    (DbSnapshot.new page_size data_len) page_size
  { page_size := page_size
    snapshot := snapshot
    transaction := none
    state_map := [] }

/-- `MemoryBackendInner::db_size`. -/
def MemoryBackendInner.db_size (s : MemoryBackendInner) : Nat :=
  match s.transaction with
  | some transaction => transaction.draft.db_file_size
  | none => s.snapshot.db_file_size

/-- `MemoryBackendInner::read_page_main`: the draft of the active transaction
first, then the snapshot, then zero-fill within `db_size`; a missing page
beyond `db_size` hits `Option::expect` and panics. -/
def MemoryBackendInner.read_page_main (s : MemoryBackendInner) (page_id : Nat) :
    Except DbErr RawPage :=
  let from_draft : Option RawPage :=
    match s.transaction with
    | some transaction => transaction.draft.read_page page_id
    | none => none
  match from_draft with
  | some page => .ok page
  | none =>
    match s.snapshot.read_page page_id with
    | some page => .ok page
    | none =>
      if page_id * s.page_size < s.db_size then
        .ok (RawPage.new page_id s.page_size)
      else
        .error (.PanicPageNotExist page_id)

/-- `MemoryBackendInner::read_page`: with a session id the captured session
transaction is consulted exclusively (zero-fill within the session's captured
size; `Option::unwrap` panics beyond it). -/
def MemoryBackendInner.read_page (s : MemoryBackendInner) (page_id : Nat)
    (session_id : Option Nat) : Except DbErr RawPage :=
  match session_id with
  | some sid =>
    match alLookup s.state_map sid with
    | none => .error (.InvalidSession sid)
    | some state =>
      match state.draft.read_page page_id with
      | some page => .ok page
      | none =>
        if page_id * s.page_size < state.draft.db_file_size then
          .ok (RawPage.new page_id s.page_size)
        else
          .error .PanicUnwrapNone
  | none => s.read_page_main page_id

/-- `MemoryBackendInner::write_page`: `session_id` must be `None`
(`unreachable!` otherwise); requires an active write transaction; inserts the
page into the draft and bumps the draft's size if the page extends it. -/
def MemoryBackendInner.write_page (s : MemoryBackendInner) (page : RawPage)
    (session_id : Option Nat) : Except DbErr Unit × MemoryBackendInner :=
  if session_id.isSome then
    (.error .PanicUnreachable, s)
  else
    match s.transaction with
    | some state =>
      if state.ty = TransactionType.write then
        let d1 := state.draft.write_page page
        let expected_db_size := (page.page_id + 1) * s.page_size
        let d2 := if expected_db_size > d1.db_file_size then
            d1.set_db_file_size expected_db_size
          else d1
        (.ok (), { s with transaction := some { state with draft := d2 } })
      else
        (.error .CannotWriteDbWithoutTransaction, s)
    | none => (.error .CannotWriteDbWithoutTransaction, s)

/-- `MemoryBackendInner::merge_transaction`: commit the draft, publish the new
snapshot and record the dirty pages on the returned transaction. -/
def MemoryBackendInner.merge_transaction (s : MemoryBackendInner)
    (state : Transaction) : Transaction × MemoryBackendInner :=
  let committed := state.draft.commitDraft
  ({ state with dirty_pages := committed.2 },
   { s with snapshot := committed.1, transaction := none })

/-- `MemoryBackendInner::commit`: errors without an active transaction, else
merges it (the returned `Transaction` carries the dirty-page set). -/
def MemoryBackendInner.commit (s : MemoryBackendInner) :
    Except DbErr Transaction × MemoryBackendInner :=
  match s.transaction with
  | none => (.error .CannotWriteDbWithoutTransaction, s)
  | some state =>
    let merged := s.merge_transaction state
    (.ok merged.1, merged.2)

/-- `MemoryBackendInner::set_db_size`: adjusts the draft's size whenever any
transaction is active; otherwise does nothing, returning ok. -/
def MemoryBackendInner.set_db_size (s : MemoryBackendInner) (size : Nat) :
    Except DbErr Unit × MemoryBackendInner :=
  match s.transaction with
  | some transaction =>
    let updated := { transaction with draft := transaction.draft.set_db_file_size size }
    (.ok (), { s with transaction := some updated })
  | none => (.ok (), s)

/-- `MemoryBackendInner::transaction_type`. -/
def MemoryBackendInner.transaction_type (s : MemoryBackendInner) :
    Option TransactionType :=
  s.transaction.map Transaction.ty

/-- `MemoryBackendInner::upgrade_read_transaction_to_write`: unconditionally
installs a fresh write transaction over the current snapshot. -/
def MemoryBackendInner.upgrade_read_transaction_to_write (s : MemoryBackendInner) :
    Except DbErr Unit × MemoryBackendInner :=
  let new_state := Transaction.new TransactionType.write s.snapshot
  (.ok (), { s with transaction := some new_state })

/-- `MemoryBackendInner::rollback` (via `recover_file_and_state`). -/
def MemoryBackendInner.rollback (s : MemoryBackendInner) :
    Except DbErr Unit × MemoryBackendInner :=
  match s.transaction with
  | none => (.error .RollbackNotInTransaction, s)
  | some _ => (.ok (), { s with transaction := none })

/-- `MemoryBackendInner::start_transaction`. -/
def MemoryBackendInner.start_transaction (s : MemoryBackendInner)
    (ty : TransactionType) : Except DbErr Unit × MemoryBackendInner :=
  match s.transaction with
  | some _ => (.error .Busy, s)
  | none =>
    (.ok (), { s with transaction := some (Transaction.new ty s.snapshot) })

/-- `MemoryBackendInner::new_session`: captures a read transaction over a
clone of the current snapshot. -/
def MemoryBackendInner.new_session (s : MemoryBackendInner) (id : Nat) :
    Except DbErr Unit × MemoryBackendInner :=
  let transaction := Transaction.new TransactionType.read s.snapshot
  (.ok (), { s with state_map := alInsert s.state_map id transaction })

/-- `MemoryBackendInner::remove_session`. -/
def MemoryBackendInner.remove_session (s : MemoryBackendInner) (id : Nat) :
    Except DbErr Unit × MemoryBackendInner :=
  (.ok (), { s with state_map := alRemove s.state_map id })

/-- Fold `write_page` (without a session) over a list of pages, keeping the
state and discarding the unit results. -/
def writeAll (s : MemoryBackendInner) (ps : List RawPage) : MemoryBackendInner :=
  ps.foldl (fun s p => (s.write_page p none).2) s

/-! ## File backend

`JournalManager`, `TransactionState` and `PageCache` are not under `src/`;
they are modelled from the spec (sections 3, 4.2, 4.5, 4.6).  The main file
is a byte list; the page cache is modelled as an unbounded map (the spec
makes the cache advisory, so the replacement policy is abstracted away). -/

/-- Modelled from the spec: `TransactionState` (not under `src/`) captures,
at `new_session`, the journal's committed offset map and recorded `db_size`;
a session's reads are answered from that frozen map. -/
structure TransactionState where
  offset_map : List (Nat × RawPage)
  db_size_at_begin : Nat
deriving DecidableEq

/-- Modelled from the spec: `JournalManager` (not under `src/`): state machine
`Idle / Read / Write`, a committed frame map (`offset_map`), a pending frame
map for the active writer, committed and pending database sizes, and the
journal length that grows with every appended frame or commit marker.  Frames
are modelled by the page image they carry. -/
structure JournalManager where
  page_size : Nat
  txn : Option TransactionType
  offset_map : List (Nat × RawPage)
  pending_map : List (Nat × RawPage)
  committed_db_size : Nat
  pending_db_size : Nat
  journal_len : Nat
deriving DecidableEq

/-- Modelled from the spec: the journal length in `journal_manager.len()`. -/
def JournalManager.len (j : JournalManager) : Nat := j.journal_len

/-- Modelled from the spec: the current transaction kind. -/
def JournalManager.transaction_type (j : JournalManager) : Option TransactionType :=
  j.txn

/-- Modelled from the spec: the recorded `db_size` (the pending size while a
transaction is active, the committed size otherwise). -/
def JournalManager.record_db_size (j : JournalManager) : Nat :=
  match j.txn with
  | some _ => j.pending_db_size
  | none => j.committed_db_size

/-- Modelled from the spec: `start_transaction` fails with `Busy` if a
transaction is already active; otherwise it enters the given state with the
pending size initialized from the committed size. -/
def JournalManager.start_transaction (j : JournalManager) (ty : TransactionType) :
    Except DbErr Unit × JournalManager :=
  match j.txn with
  | some _ => (.error .Busy, j)
  | none =>
    (.ok (), { j with txn := some ty, pending_db_size := j.committed_db_size })

/-- Modelled from the spec: `upgrade_read_transaction_to_write` lifts the
journal state to `Write`. -/
def JournalManager.upgrade_read_transaction_to_write (j : JournalManager) :
    Except DbErr Unit × JournalManager :=
  (.ok (), { j with txn := some TransactionType.write })

/-- Modelled from the spec: `append_raw_page` fails with
`CannotWriteDbWithoutTransaction` unless a write transaction is active;
otherwise it appends a page frame (updating the pending map, growing the
journal, and bumping the pending `db_size` if the page extends it). -/
def JournalManager.append_raw_page (j : JournalManager) (page : RawPage) :
    Except DbErr Unit × JournalManager :=
  match j.txn with
  | some TransactionType.write =>
    let expected := (page.page_id + 1) * j.page_size
    (.ok (), { j with
      pending_map := alInsert j.pending_map page.page_id page
      pending_db_size := max j.pending_db_size expected
      journal_len := j.journal_len + 1 })
  | _ => (.error .CannotWriteDbWithoutTransaction, j)

/-- Modelled from the spec: journal `commit` writes a commit marker (growing
the journal), promotes the pending map into the offset map, publishes the
pending `db_size` and returns to `Idle`. -/
def JournalManager.commitJ (j : JournalManager) : JournalManager :=
  { j with
    txn := none
    offset_map := alUnion j.offset_map j.pending_map
    pending_map := []
    committed_db_size :=
      match j.txn with
      | some _ => j.pending_db_size
      | none => j.committed_db_size
    journal_len := j.journal_len + 1 }

/-- Modelled from the spec: journal `rollback` discards the pending map and
returns to `Idle`; errors if no transaction is active. -/
def JournalManager.rollback (j : JournalManager) :
    Except DbErr Unit × JournalManager :=
  match j.txn with
  | none => (.error .RollbackNotInTransaction, j)
  | some _ =>
    let j' := { j with txn := none, pending_map := ([] : List (Nat × RawPage)) }
    (.ok (), { j' with pending_db_size := j.committed_db_size })

/-- Modelled from the spec: `expand_db_size` updates the pending `db_size`
during an active transaction. -/
def JournalManager.expand_db_size (j : JournalManager) (size : Nat) :
    Except DbErr Unit × JournalManager :=
  match j.txn with
  | some _ => (.ok (), { j with pending_db_size := size })
  | none => (.ok (), j)

/-- Modelled from the spec: the journal's main view — the highest visible
frame for a page id: the writer's pending frame first, then the committed
offset map. -/
def JournalManager.read_page_main (j : JournalManager) (page_id : Nat) :
    Option RawPage :=
  match alLookup j.pending_map page_id with
  | some page => some page
  | none => alLookup j.offset_map page_id

/-- Modelled from the spec: a session read consults only the offset map
captured in the session's `TransactionState`. -/
def JournalManager.read_page_session (state : TransactionState) (page_id : Nat) :
    Option RawPage :=
  alLookup state.offset_map page_id

/-- Modelled from the spec: `new_state` captures the committed offset map and
`db_size` at this instant. -/
def JournalManager.new_state (j : JournalManager) : TransactionState :=
  { offset_map := j.offset_map, db_size_at_begin := j.committed_db_size }

/-- Write a page image into the main file at `page_id * page_size`, extending
the file with zeros first when the offset lies beyond its end. -/
def fileWritePage (file : List Nat) (page_size : Nat) (page : RawPage) : List Nat :=
  let needed := (page.page_id + 1) * page_size
  let grown := if file.length < needed
    then file ++ List.replicate (needed - file.length) 0
    else file
  setBytes grown (page.page_id * page_size) page.data

/-- Modelled from the spec: `checkpoint_journal` writes every committed frame
into the main file at `page_id * page_size`, truncates the journal and clears
the offset map. -/
def JournalManager.checkpoint_journal (j : JournalManager) (file : List Nat) :
    JournalManager × List Nat :=
  let file' := j.offset_map.foldl (fun f kv => fileWritePage f j.page_size kv.2) file
  ({ j with offset_map := [], pending_map := [], journal_len := 0 }, file')

/-- `FileBackendInner` from `file_backend.rs`: the on-disk main file is a byte
list, session ids are `Nat`. -/
structure FileBackendInner where
  file : List Nat
  page_size : Nat
  journal_manager : JournalManager
  config : Config
  page_cache : List (Nat × RawPage)
  state_map : List (Nat × TransactionState)
deriving DecidableEq

/-- `InitDbResult` from `file_backend.rs`. -/
structure InitDbResult where
  db_file_size : Nat
deriving DecidableEq

/-- `FileBackendInner::check_db_version`: read the 4 bytes at offset 32 and
compare them with `DATABASE_VERSION`; a short read is an I/O error. -/
def FileBackendInner.check_db_version (file : List Nat) : Except DbErr Unit :=
  if file.length < 36 then .error .IOError
  else
    let version := (file.drop 32).take 4
    if version ≠ DATABASE_VERSION then
      .error (.VersionMismatch DATABASE_VERSION version)
    else .ok ()

/-- `FileBackendInner::init_db`: an empty file is pre-allocated to
`init_block_count * page_size` bytes and receives the header page at offset 0
(`force_write_first_block`); a non-empty file must have a length that is a
multiple of `page_size` and, when `check_db_version` is set, a matching
version; otherwise `NotAValidDatabase`.  Returns the recorded database size
and the (possibly initialized) file contents. -/
def FileBackendInner.init_db (file : List Nat) (page_size init_block_count : Nat)
    (check_db_version : Bool) : Except DbErr (InitDbResult × List Nat) :=
  if file.length = 0 then
    let expected_file_size := page_size * init_block_count
    let f1 := List.replicate expected_file_size 0
    let f2 := setBytes f1 0 (HeaderPageWrapper.init 0 page_size).data
    .ok ({ db_file_size := expected_file_size }, f2)
  else if file.length % page_size = 0 then
    match (if check_db_version then FileBackendInner.check_db_version file else .ok ()) with
    | .error e => .error e
    | .ok _ => .ok ({ db_file_size := file.length }, file)
  else
    .error .NotAValidDatabase

/-- The initialization step of `FileBackendInner::open` (lines 188-195):
`init_db` is invoked with the literal `true` for its `check_db_version`
argument, not with `config.check_db_version`. -/
def FileBackendInner.openInit (file : List Nat) (page_size : Nat) (config : Config) :
    Except DbErr (InitDbResult × List Nat) :=
  FileBackendInner.init_db file page_size config.init_block_count true

/-- `FileBackendInner::is_journal_full`. -/
def FileBackendInner.is_journal_full (s : FileBackendInner) : Prop :=
  s.config.journal_full_size ≤ s.journal_manager.len

instance (s : FileBackendInner) : Decidable s.is_journal_full :=
  inferInstanceAs (Decidable (_ ≤ _))

/-- `FileBackendInner::read_page_from_main_file`: a zero page, filled from the
file when the file extends past the end of the addressed page. -/
def FileBackendInner.read_page_from_main_file (s : FileBackendInner)
    (page_id : Nat) : RawPage :=
  let offset := page_id * s.page_size
  if offset + s.page_size ≤ s.file.length then
    { page_id := page_id, data := (s.file.drop offset).take s.page_size }
  else
    RawPage.new page_id s.page_size

/-- `FileBackendInner::read_page_main`: page cache, then the journal's main
view, then the main file (inserting main-file reads into the cache). -/
def FileBackendInner.read_page_main (s : FileBackendInner) (page_id : Nat) :
    Except DbErr RawPage × FileBackendInner :=
  match alLookup s.page_cache page_id with
  | some page => (.ok page, s)
  | none =>
    match s.journal_manager.read_page_main page_id with
    | some page => (.ok page, s)
    | none =>
      let result := s.read_page_from_main_file page_id
      (.ok result, { s with page_cache := alInsert s.page_cache page_id result })

/-- `FileBackendInner::read_page`: with a session, the session's captured
journal view then the main file; without, `read_page_main`. -/
def FileBackendInner.read_page (s : FileBackendInner) (page_id : Nat)
    (session_id : Option Nat) : Except DbErr RawPage × FileBackendInner :=
  match session_id with
  | some sid =>
    match alLookup s.state_map sid with
    | none => (.error (.InvalidSession sid), s)
    | some state =>
      match JournalManager.read_page_session state page_id with
      | some page => (.ok page, s)
      | none => (.ok (s.read_page_from_main_file page_id), s)
  | none => s.read_page_main page_id

/-- `FileBackendInner::write_page`: `session_id` must be `None`
(`unreachable!` otherwise); append the page frame to the journal, then insert
the page into the page cache. -/
def FileBackendInner.write_page (s : FileBackendInner) (page : RawPage)
    (session_id : Option Nat) : Except DbErr Unit × FileBackendInner :=
  if session_id.isSome then
    (.error .PanicUnreachable, s)
  else
    match s.journal_manager.append_raw_page page with
    | (.error e, j') => (.error e, { s with journal_manager := j' })
    | (.ok _, j') =>
      let s' := { s with journal_manager := j' }
      (.ok (), { s' with page_cache := alInsert s.page_cache page.page_id page })

/-- `FileBackendInner::commit`: journal commit, then checkpoint exactly when
the journal is full and no session is open. -/
def FileBackendInner.commit (s : FileBackendInner) :
    Except DbErr Unit × FileBackendInner :=
  let j' := s.journal_manager.commitJ
  let s' := { s with journal_manager := j' }
  if s'.is_journal_full ∧ s'.state_map.isEmpty then
    let checkpointed := j'.checkpoint_journal s'.file
    (.ok (), { s' with journal_manager := checkpointed.1, file := checkpointed.2 })
  else
    (.ok (), s')

/-- `FileBackendInner::db_size`. -/
def FileBackendInner.db_size (s : FileBackendInner) : Nat :=
  s.journal_manager.record_db_size

/-- `FileBackendInner::set_db_size`. -/
def FileBackendInner.set_db_size (s : FileBackendInner) (size : Nat) :
    Except DbErr Unit × FileBackendInner :=
  let r := s.journal_manager.expand_db_size size
  (r.1, { s with journal_manager := r.2 })

/-- `FileBackendInner::transaction_type`. -/
def FileBackendInner.transaction_type (s : FileBackendInner) :
    Option TransactionType :=
  s.journal_manager.transaction_type

/-- `FileBackendInner::rollback`: journal rollback, then reinitialize the page
cache (only on success; the `?` operator returns early on error). -/
def FileBackendInner.rollback (s : FileBackendInner) :
    Except DbErr Unit × FileBackendInner :=
  match s.journal_manager.rollback with
  | (.error e, j') => (.error e, { s with journal_manager := j' })
  | (.ok _, j') => (.ok (), { s with journal_manager := j', page_cache := [] })

/-- `FileBackendInner::start_transaction`. -/
def FileBackendInner.start_transaction (s : FileBackendInner)
    (ty : TransactionType) : Except DbErr Unit × FileBackendInner :=
  let r := s.journal_manager.start_transaction ty
  (r.1, { s with journal_manager := r.2 })

/-- `FileBackendInner::new_session`. -/
def FileBackendInner.new_session (s : FileBackendInner) (id : Nat) :
    Except DbErr Unit × FileBackendInner :=
  let state := s.journal_manager.new_state
  (.ok (), { s with state_map := alInsert s.state_map id state })

/-- `FileBackendInner::remove_session`. -/
def FileBackendInner.remove_session (s : FileBackendInner) (id : Nat) :
    Except DbErr Unit × FileBackendInner :=
  (.ok (), { s with state_map := alRemove s.state_map id })

/-- Fold `write_page` (without a session) over a list of pages on the file
backend. -/
def writeAllFile (s : FileBackendInner) (ps : List RawPage) : FileBackendInner :=
  ps.foldl (fun s p => (s.write_page p none).2) s

/-! ## IndexedDB backend -/

/-- `IndexedDbStoreFrame` from `store_data.rs`, including the `sid` field set
by `transaction_to_store_frame` in `indexeddb_backend.rs` (the struct
declaration in `store_data.rs` omits it; the constructor site and the spec
both carry it).  Session ids are short strings. -/
structure IndexedDbStoreFrame where
  pages : List (List Nat)
  page_ids : List Nat
  sid : String
deriving DecidableEq

/-- `IndexedDbBackendInner` from `indexeddb_backend.rs`: the `db_logs` object
store is modelled as the list of appended frames in key order; the host
IndexedDB transaction that wraps each append commits immediately, so an
append is modelled as a synchronous list extension.  `compress` stands for
`fast_compress` (LZ4 frame encoding by the external `lz4_flex` crate). -/
structure IndexedDbBackendInner where
  session_id : String
  db_logs : List IndexedDbStoreFrame
  mem : MemoryBackendInner
deriving DecidableEq

/-- `IndexedDbBackendInner::transaction_to_store_frame`: one `page_ids` entry
and one compressed payload per dirty page, pushed in tandem while iterating
the dirty-page map, plus the backend's session id. -/
def IndexedDbBackendInner.transaction_to_store_frame
    (compress : List Nat → List Nat) (s : IndexedDbBackendInner)
    (transaction : Transaction) : IndexedDbStoreFrame :=
  { pages := transaction.dirty_pages.map (fun kv => compress kv.2.data)
    page_ids := transaction.dirty_pages.map (fun kv => kv.1)
    sid := s.session_id }

/-- `IndexedDbBackendInner::write_transaction_to_indexeddb`: open a
read-write transaction on `db_logs`, `add` the encoded frame under the
auto-incrementing key, and commit the host transaction immediately. -/
def IndexedDbBackendInner.write_transaction_to_indexeddb
    (compress : List Nat → List Nat) (s : IndexedDbBackendInner)
    (transaction : Transaction) : Except DbErr Unit × IndexedDbBackendInner :=
  let frame := s.transaction_to_store_frame compress transaction
  (.ok (), { s with db_logs := s.db_logs ++ [frame] })

/-- `IndexedDbBackendInner::commit`: commit the wrapped memory backend, then
persist the returned dirty-page set. -/
def IndexedDbBackendInner.commit (compress : List Nat → List Nat)
    (s : IndexedDbBackendInner) : Except DbErr Unit × IndexedDbBackendInner :=
  match s.mem.commit with
  | (.error e, m') => (.error e, { s with mem := m' })
  | (.ok transaction, m') =>
    let s1 := { s with mem := m' }
    let r := s1.write_transaction_to_indexeddb compress transaction
    (r.1, r.2)

/-- `IndexedDbBackendInner::write_page` delegates to the memory backend. -/
def IndexedDbBackendInner.write_page (s : IndexedDbBackendInner)
    (page : RawPage) (session_id : Option Nat) :
    Except DbErr Unit × IndexedDbBackendInner :=
  let r := s.mem.write_page page session_id
  (r.1, { s with mem := r.2 })

/-- One `MemoryBackendInner::write_page` step on the draft: insert the page
into the overlay, then bump the pending size if the page extends it. -/
def draftWriteStep (page_size : Nat) (d : DbSnapshotDraft) (page : RawPage) :
    DbSnapshotDraft :=
  let d1 := d.write_page page
  let expected_db_size := (page.page_id + 1) * page_size
  if expected_db_size > d1.db_file_size then
    d1.set_db_file_size expected_db_size
  else d1


/-- The page a cache-free main-view read returns: the journal main view, then
the main file. -/
def FileBackendInner.main_view (s : FileBackendInner) (pid : Nat) : RawPage :=
  match s.journal_manager.read_page_main pid with
  | some page => page
  | none => s.read_page_from_main_file pid

/-- The page cache is advisory: every cached page agrees with the cache-free
main view. -/
def FileBackendInner.cache_coherent (s : FileBackendInner) : Prop :=
  ∀ pid page, alLookup s.page_cache pid = some page → page = s.main_view pid

/-- A 64-byte database file (one 64-byte page), version bytes `[9,9,9,9]` at
offset 32. -/
def mismatchedFile : List Nat :=
  List.replicate 32 0 ++ [9, 9, 9, 9] ++ List.replicate 28 0

/-- Witness fixture: an 8-byte page with id 1. -/
def pageA : RawPage := ⟨1, [1, 2, 3, 4, 5, 6, 7, 8]⟩

/-- Witness fixture: an 8-byte page with id 2. -/
def pageB : RawPage := ⟨2, [9, 9, 9, 9, 9, 9, 9, 9]⟩

/-- Witness fixture: an idle journal manager over 8-byte pages. -/
def journalIdle : JournalManager := ⟨8, none, [], [], 16, 16, 0⟩

/-- Witness fixture: an idle file backend with an empty cache and no
sessions. -/
def fileIdle : FileBackendInner :=
  ⟨List.replicate 16 0, 8, journalIdle, Config.default, [], []⟩

/-- Witness fixture: a journal manager in a write transaction with one
pending frame and a large journal length. -/
def journalFull : JournalManager :=
  ⟨8, some TransactionType.write, [], [(1, pageA)], 16, 16, 2000⟩

/-- Witness fixture: a full-journal file backend with no sessions. -/
def fileFull : FileBackendInner :=
  ⟨List.replicate 16 0, 8, journalFull, Config.default, [], []⟩

/-- Witness fixture: a full-journal file backend with one live session. -/
def fileWithSession : FileBackendInner :=
  ⟨List.replicate 16 0, 8, journalFull, Config.default, [], [(5, ⟨[], 16⟩)]⟩

/-- Witness fixture: a memory backend holding an uncommitted write of
`pageA`. -/
def memWithWrite : MemoryBackendInner :=
  writeAll ((MemoryBackendInner.new 8 2).start_transaction
    TransactionType.write).2 [pageA]

/-- Witness fixture: the transaction `memWithWrite` holds. -/
def txnWithWrite : Transaction :=
  ⟨TransactionType.write,
    ⟨(MemoryBackendInner.new 8 2).snapshot, [(1, pageA)], 16⟩, []⟩

/-- Witness fixture: an IndexedDB backend over `memWithWrite`. -/
def idbWithWrite : IndexedDbBackendInner := ⟨"abc123", [], memWithWrite⟩

/-- Witness fixture: an idle IndexedDB backend. -/
def idbIdle : IndexedDbBackendInner := ⟨"sid001", [], MemoryBackendInner.new 8 2⟩


/-! ## Lemmas and claim theorems -/

theorem alKeys_nil {α : Type} : alKeys ([] : List (Nat × α)) = [] := rfl

theorem alKeys_cons {α : Type} (k : Nat) (v : α) (tl : List (Nat × α)) :
    alKeys ((k, v) :: tl) = k :: alKeys tl := rfl


theorem alLookup_alInsert {α : Type} (m : List (Nat × α)) (k : Nat) (v : α)
    (key : Nat) :
    alLookup (alInsert m k v) key = if key = k then some v else alLookup m key := by
  induction m with
  | nil =>
    simp [alInsert, alLookup]
  | cons hd tl ih =>
    obtain ⟨k', v'⟩ := hd
    by_cases h1 : k < k'
    · simp only [alInsert, if_pos h1]
      by_cases h2 : key = k
      · simp [alLookup, h2]
      · simp [alLookup, h2]
    · by_cases h2 : k = k'
      · subst h2
        simp only [alInsert, if_neg h1, if_pos rfl]
        by_cases h3 : key = k
        · simp [alLookup, h3]
        · simp [alLookup, h3]
      · simp only [alInsert, if_neg h1, if_neg h2]
        by_cases h3 : key = k'
        · have hkk : ¬ key = k := by omega
          have hk'k : ¬ k' = k := by omega
          simp [alLookup, h3, hkk, hk'k]
        · simp [alLookup, h3, ih]

theorem alLookup_eq_none_of_not_mem {α : Type} (m : List (Nat × α)) (key : Nat)
    (h : key ∉ alKeys m) : alLookup m key = none := by
  induction m with
  | nil => simp [alLookup]
  | cons hd tl ih =>
    obtain ⟨k', v'⟩ := hd
    simp only [alKeys_cons, List.mem_cons] at h
    push_neg at h
    simp only [alLookup, if_neg h.1]
    exact ih h.2

theorem alKeys_alInsert_subset {α : Type} (m : List (Nat × α)) (k : Nat) (v : α)
    (a : Nat) (h : a ∈ alKeys (alInsert m k v)) : a = k ∨ a ∈ alKeys m := by
  induction m with
  | nil =>
    simp only [alInsert, alKeys_cons, alKeys_nil, List.mem_cons,
      List.not_mem_nil, or_false] at h
    exact Or.inl h
  | cons hd tl ih =>
    obtain ⟨k', v'⟩ := hd
    by_cases h1 : k < k'
    · simp only [alInsert, if_pos h1, alKeys_cons, List.mem_cons] at h
      rcases h with h | h | h
      · exact Or.inl h
      · exact Or.inr (by simp only [alKeys_cons, List.mem_cons]; exact Or.inl h)
      · exact Or.inr (by simp only [alKeys_cons, List.mem_cons]; exact Or.inr h)
    · by_cases h2 : k = k'
      · simp only [alInsert, if_neg h1, if_pos h2, alKeys_cons, List.mem_cons] at h
        rcases h with h | h
        · exact Or.inl h
        · exact Or.inr (by simp only [alKeys_cons, List.mem_cons]; exact Or.inr h)
      · simp only [alInsert, if_neg h1, if_neg h2, alKeys_cons, List.mem_cons] at h
        rcases h with h | h
        · exact Or.inr (by simp only [alKeys_cons, List.mem_cons]; exact Or.inl h)
        · rcases ih h with h' | h'
          · exact Or.inl h'
          · exact Or.inr (by simp only [alKeys_cons, List.mem_cons]; exact Or.inr h')

theorem alSorted_alInsert {α : Type} (m : List (Nat × α)) (k : Nat) (v : α)
    (h : alSorted m) : alSorted (alInsert m k v) := by
  induction m with
  | nil => simp [alInsert, alSorted, alKeys]
  | cons hd tl ih =>
    obtain ⟨k', v'⟩ := hd
    simp only [alSorted, alKeys_cons, List.pairwise_cons] at h
    obtain ⟨hlt, hrest⟩ := h
    by_cases h1 : k < k'
    · simp only [alSorted, alInsert, if_pos h1, alKeys_cons, List.pairwise_cons]
      refine ⟨?_, hlt, hrest⟩
      intro a ha
      simp only [List.mem_cons] at ha
      rcases ha with rfl | ha
      · exact h1
      · exact h1.trans (hlt a ha)
    · by_cases h2 : k = k'
      · simp only [alSorted, alInsert, if_neg h1, if_pos h2, alKeys_cons,
          List.pairwise_cons]
        exact ⟨fun a ha => h2 ▸ hlt a ha, hrest⟩
      · have hk'k : k' < k := by omega
        simp only [alSorted, alInsert, if_neg h1, if_neg h2, alKeys_cons,
          List.pairwise_cons]
        refine ⟨?_, ih hrest⟩
        intro a ha
        rcases alKeys_alInsert_subset tl k v a ha with rfl | ha'
        · exact hk'k
        · exact hlt a ha'

theorem alLookup_alUnion {α : Type} (base overlay : List (Nat × α))
    (hnd : (alKeys overlay).Nodup) (key : Nat) :
    alLookup (alUnion base overlay) key =
      match alLookup overlay key with
      | some v => some v
      | none => alLookup base key := by
  induction overlay generalizing base with
  | nil => simp [alUnion, alLookup]
  | cons hd tl ih =>
    obtain ⟨k, v⟩ := hd
    simp only [alKeys_cons, List.nodup_cons] at hnd
    obtain ⟨hk, hnd'⟩ := hnd
    simp only [alUnion]
    rw [ih (alInsert base k v) hnd']
    by_cases h : key = k
    · subst h
      rw [alLookup_eq_none_of_not_mem tl key hk]
      simp [alLookup, alLookup_alInsert]
    · have hlkup : alLookup ((k, v) :: tl) key = alLookup tl key := by
        simp [alLookup, h]
      rw [hlkup]
      cases htl : alLookup tl key with
      | some w => simp
      | none => simp [alLookup_alInsert, h]

theorem alSorted_nodup_keys {α : Type} (m : List (Nat × α)) (h : alSorted m) :
    (alKeys m).Nodup :=
  List.Pairwise.imp (fun hlt => Nat.ne_of_lt hlt) h

theorem draftWriteStep_overlay (page_size : Nat) (d : DbSnapshotDraft)
    (p : RawPage) :
    (draftWriteStep page_size d p).overlay = alInsert d.overlay p.page_id p := by
  simp only [draftWriteStep, DbSnapshotDraft.write_page,
    DbSnapshotDraft.set_db_file_size]
  split <;> rfl

theorem draftWriteStep_base (page_size : Nat) (d : DbSnapshotDraft)
    (p : RawPage) :
    (draftWriteStep page_size d p).base = d.base := by
  simp only [draftWriteStep, DbSnapshotDraft.write_page,
    DbSnapshotDraft.set_db_file_size]
  split <;> rfl

theorem write_page_ok_snd (s : MemoryBackendInner) (t : Transaction)
    (p : RawPage) (h : s.transaction = some t)
    (hty : t.ty = TransactionType.write) :
    (s.write_page p none).2 = { s with
      transaction := some ⟨t.ty, draftWriteStep s.page_size t.draft p, t.dirty_pages⟩ } := by
  simp [MemoryBackendInner.write_page, h, hty, draftWriteStep]

theorem writeAll_write_txn (ps : List RawPage) (s : MemoryBackendInner)
    (t : Transaction) (h : s.transaction = some t)
    (hty : t.ty = TransactionType.write) :
    writeAll s ps = { s with
      transaction := some ⟨t.ty, ps.foldl (draftWriteStep s.page_size) t.draft, t.dirty_pages⟩ } := by
  induction ps generalizing s t with
  | nil =>
    show s = { s with transaction := some ⟨t.ty, t.draft, t.dirty_pages⟩ }
    rw [show (⟨t.ty, t.draft, t.dirty_pages⟩ : Transaction) = t from rfl, ← h]
  | cons p ps ih =>
    show writeAll (s.write_page p none).2 ps = _
    rw [write_page_ok_snd s t p h hty]
    exact ih _ ⟨t.ty, draftWriteStep s.page_size t.draft p, t.dirty_pages⟩ rfl hty

theorem foldl_draftWriteStep_overlay (ps : List RawPage) (page_size : Nat)
    (d : DbSnapshotDraft) :
    (ps.foldl (draftWriteStep page_size) d).overlay =
      ps.foldl (fun o q => alInsert o q.page_id q) d.overlay := by
  induction ps generalizing d with
  | nil => rfl
  | cons p ps ih =>
    simp only [List.foldl_cons]
    rw [ih, draftWriteStep_overlay]

theorem foldl_draftWriteStep_base (ps : List RawPage) (page_size : Nat)
    (d : DbSnapshotDraft) :
    (ps.foldl (draftWriteStep page_size) d).base = d.base := by
  induction ps generalizing d with
  | nil => rfl
  | cons p ps ih =>
    simp only [List.foldl_cons]
    rw [ih, draftWriteStep_base]

theorem alLookup_foldl_insert_skip (ps : List RawPage)
    (o : List (Nat × RawPage)) (key : Nat)
    (h : ∀ r ∈ ps, r.page_id ≠ key) :
    alLookup (ps.foldl (fun o q => alInsert o q.page_id q) o) key =
      alLookup o key := by
  induction ps generalizing o with
  | nil => rfl
  | cons q ps ih =>
    simp only [List.foldl_cons]
    rw [ih _ (fun r hr => h r (List.mem_cons_of_mem q hr)), alLookup_alInsert]
    have hq : ¬ key = q.page_id :=
      fun hc => h q (List.mem_cons_self q ps) (hc ▸ rfl)
    simp [hq]

theorem alLookup_foldl_insert (ps : List RawPage) (o : List (Nat × RawPage))
    (hnd : (ps.map RawPage.page_id).Nodup) (p : RawPage) (hp : p ∈ ps) :
    alLookup (ps.foldl (fun o q => alInsert o q.page_id q) o) p.page_id =
      some p := by
  induction ps generalizing o with
  | nil => cases hp
  | cons q ps ih =>
    simp only [List.map_cons, List.nodup_cons] at hnd
    simp only [List.foldl_cons]
    rcases List.mem_cons.mp hp with rfl | hp'
    · have hnotin : ∀ r ∈ ps, r.page_id ≠ p.page_id := by
        intro r hr heq
        exact hnd.1 (heq ▸ List.mem_map_of_mem RawPage.page_id hr)
      rw [alLookup_foldl_insert_skip ps _ _ hnotin, alLookup_alInsert]
      simp
    · exact ih _ hnd.2 hp'

theorem alSorted_foldl_insert (ps : List RawPage) (o : List (Nat × RawPage))
    (h : alSorted o) :
    alSorted (ps.foldl (fun o q => alInsert o q.page_id q) o) := by
  induction ps generalizing o with
  | nil => exact h
  | cons q ps ih =>
    simp only [List.foldl_cons]
    exact ih _ (alSorted_alInsert o q.page_id q h)

theorem start_transaction_none (s : MemoryBackendInner) (ty : TransactionType)
    (hs : s.transaction = none) :
    s.start_transaction ty =
      (.ok (), { s with transaction := some (Transaction.new ty s.snapshot) }) := by
  simp [MemoryBackendInner.start_transaction, hs]

/-- C1 scratch check. -/
theorem write_page_components (s : MemoryBackendInner) (p : RawPage)
    (sid : Option Nat) :
    (s.write_page p sid).2.state_map = s.state_map ∧
    (s.write_page p sid).2.page_size = s.page_size ∧
    (s.write_page p sid).2.snapshot = s.snapshot := by
  unfold MemoryBackendInner.write_page
  split
  · exact ⟨rfl, rfl, rfl⟩
  · split
    · split
      · exact ⟨rfl, rfl, rfl⟩
      · exact ⟨rfl, rfl, rfl⟩
    · exact ⟨rfl, rfl, rfl⟩

theorem writeAll_components (ps : List RawPage) (s : MemoryBackendInner) :
    (writeAll s ps).state_map = s.state_map ∧
    (writeAll s ps).page_size = s.page_size ∧
    (writeAll s ps).snapshot = s.snapshot := by
  induction ps generalizing s with
  | nil => exact ⟨rfl, rfl, rfl⟩
  | cons p ps ih =>
    show (writeAll (s.write_page p none).2 ps).state_map = _ ∧ _ ∧ _
    obtain ⟨h1, h2, h3⟩ := ih (s.write_page p none).2
    obtain ⟨h4, h5, h6⟩ := write_page_components s p none
    exact ⟨h1.trans h4, h2.trans h5, h3.trans h6⟩

theorem commit_components (s : MemoryBackendInner) :
    (s.commit).2.state_map = s.state_map ∧
    (s.commit).2.page_size = s.page_size := by
  unfold MemoryBackendInner.commit MemoryBackendInner.merge_transaction
  split <;> exact ⟨rfl, rfl⟩

theorem start_transaction_components (s : MemoryBackendInner)
    (ty : TransactionType) :
    (s.start_transaction ty).2.state_map = s.state_map ∧
    (s.start_transaction ty).2.page_size = s.page_size ∧
    (s.start_transaction ty).2.snapshot = s.snapshot := by
  unfold MemoryBackendInner.start_transaction
  split <;> exact ⟨rfl, rfl, rfl⟩

theorem read_page_session_congr (s s' : MemoryBackendInner)
    (h1 : s.state_map = s'.state_map) (h2 : s.page_size = s'.page_size)
    (pid sid : Nat) :
    s.read_page pid (some sid) = s'.read_page pid (some sid) := by
  simp only [MemoryBackendInner.read_page, h1, h2]

/-- **C1.** Memory backend write/commit/read round-trip: starting from a state
with no active transaction, `start_transaction(Write)`, `write_page` for each
page of a list with pairwise-distinct page ids, then `commit`; afterwards
`read_page(id, None)` returns exactly the page that was written with that id,
for every id in the list. -/
theorem c1_memory_write_commit_read_round_trip (s : MemoryBackendInner)
    (ps : List RawPage) (hs : s.transaction = none)
    (hnd : (ps.map RawPage.page_id).Nodup) (p : RawPage) (hp : p ∈ ps) :
    ((writeAll (s.start_transaction TransactionType.write).2 ps).commit).2.read_page
      p.page_id none = .ok p := by
  have h1 : (s.start_transaction TransactionType.write).2
      = { s with transaction := some (Transaction.new TransactionType.write s.snapshot) } := by
    rw [start_transaction_none s _ hs]
  rw [h1, writeAll_write_txn ps _ (Transaction.new TransactionType.write s.snapshot) rfl rfl]
  have hbase := foldl_draftWriteStep_base ps s.page_size
    (DbSnapshotDraft.new s.snapshot)
  have hov := foldl_draftWriteStep_overlay ps s.page_size
    (DbSnapshotDraft.new s.snapshot)
  simp only [MemoryBackendInner.commit, MemoryBackendInner.merge_transaction,
    MemoryBackendInner.read_page, MemoryBackendInner.read_page_main,
    DbSnapshotDraft.commitDraft, DbSnapshot.read_page, Transaction.new]
  have hsorted : alSorted ((ps.foldl (draftWriteStep s.page_size)
      (DbSnapshotDraft.new s.snapshot)).overlay) := by
    rw [hov]
    exact alSorted_foldl_insert ps _ (by simp [alSorted, alKeys, DbSnapshotDraft.new])
  have hlk : alLookup ((ps.foldl (draftWriteStep s.page_size)
      (DbSnapshotDraft.new s.snapshot)).overlay) p.page_id = some p := by
    rw [hov]
    exact alLookup_foldl_insert ps _ hnd p hp
  rw [alLookup_alUnion _ _ (alSorted_nodup_keys _ hsorted), hlk]

/-- **C2.** Session isolation on the memory backend: a session captures the
snapshot at `new_session`, and a later write transaction plus commit leaves
every read through that session unchanged (for all page ids, hence in
particular for every page touched by the commit). -/
theorem c2_memory_session_isolation (s : MemoryBackendInner) (sid : Nat)
    (ps : List RawPage) (pid : Nat) :
    ((writeAll ((s.new_session sid).2.start_transaction
        TransactionType.write).2 ps).commit).2.read_page pid (some sid) =
      (s.new_session sid).2.read_page pid (some sid) := by
  apply read_page_session_congr
  · obtain ⟨hc, _⟩ := commit_components
      (writeAll (((s.new_session sid).2.start_transaction TransactionType.write).2) ps)
    obtain ⟨hw, _, _⟩ := writeAll_components ps
      (((s.new_session sid).2.start_transaction TransactionType.write).2)
    obtain ⟨hst, _, _⟩ := start_transaction_components (s.new_session sid).2
      TransactionType.write
    exact (hc.trans hw).trans hst
  · obtain ⟨_, hc⟩ := commit_components
      (writeAll (((s.new_session sid).2.start_transaction TransactionType.write).2) ps)
    obtain ⟨_, hw, _⟩ := writeAll_components ps
      (((s.new_session sid).2.start_transaction TransactionType.write).2)
    obtain ⟨_, hst, _⟩ := start_transaction_components (s.new_session sid).2
      TransactionType.write
    exact (hc.trans hw).trans hst

/-- **C3.** Memory backend `read_page` on a page id with no stored image:
within `db_size` (for the main view) or within the session's captured size
(for a session read) the result is a zero-filled page of `page_size` bytes;
beyond it the read fails (an `expect`/`unwrap` panic in the source, modelled
as an error outcome). -/
theorem c3_memory_read_missing_page (s : MemoryBackendInner) (pid : Nat) :
    ((∀ t, s.transaction = some t → t.draft.read_page pid = none) →
      s.snapshot.read_page pid = none →
      s.read_page pid none =
        (if pid * s.page_size < s.db_size then
          .ok (RawPage.new pid s.page_size)
         else .error (DbErr.PanicPageNotExist pid))) ∧
    (∀ sid state, alLookup s.state_map sid = some state →
      state.draft.read_page pid = none →
      s.read_page pid (some sid) =
        (if pid * s.page_size < state.draft.db_file_size then
          .ok (RawPage.new pid s.page_size)
         else .error DbErr.PanicUnwrapNone)) := by
  constructor
  · intro hdraft hsnap
    simp only [MemoryBackendInner.read_page, MemoryBackendInner.read_page_main]
    cases htx : s.transaction with
    | none => simp [hsnap]
    | some t => simp [hdraft t htx, hsnap]
  · intro sid state hlk hdraft
    simp only [MemoryBackendInner.read_page, hlk, hdraft]

theorem mem_write_page_not_write (s : MemoryBackendInner) (p : RawPage)
    (h : s.transaction_type ≠ some TransactionType.write) :
    s.write_page p none = (.error .CannotWriteDbWithoutTransaction, s) := by
  unfold MemoryBackendInner.write_page
  simp only [Option.isSome_none, Bool.false_eq_true, if_false]
  cases htx : s.transaction with
  | none => rfl
  | some t =>
    have hty : ¬ t.ty = TransactionType.write := by
      intro hc
      exact h (by simp [MemoryBackendInner.transaction_type, htx, hc])
    simp [hty]

/-- **C4.** `write_page(page, None)` fails with
`CannotWriteDbWithoutTransaction` and leaves the backend state unchanged
whenever no write transaction is active (no transaction at all, or a read
transaction), for every page, on all three backends. -/
theorem c4_write_page_requires_write_transaction :
    (∀ (s : MemoryBackendInner) (p : RawPage),
      s.transaction_type ≠ some TransactionType.write →
      s.write_page p none = (.error .CannotWriteDbWithoutTransaction, s)) ∧
    (∀ (s : FileBackendInner) (p : RawPage),
      s.transaction_type ≠ some TransactionType.write →
      s.write_page p none = (.error .CannotWriteDbWithoutTransaction, s)) ∧
    (∀ (s : IndexedDbBackendInner) (p : RawPage),
      s.mem.transaction_type ≠ some TransactionType.write →
      s.write_page p none = (.error .CannotWriteDbWithoutTransaction, s)) := by
  refine ⟨mem_write_page_not_write, ?_, ?_⟩
  · intro s p h
    unfold FileBackendInner.write_page
    simp only [Option.isSome_none, Bool.false_eq_true, if_false]
    have happ : s.journal_manager.append_raw_page p =
        (.error .CannotWriteDbWithoutTransaction, s.journal_manager) := by
      unfold JournalManager.append_raw_page
      cases htx : s.journal_manager.txn with
      | none => rfl
      | some ty =>
        cases ty with
        | read => rfl
        | write =>
          exact absurd (by simp [FileBackendInner.transaction_type,
            JournalManager.transaction_type, htx]) h
    rw [happ]
  · intro s p h
    unfold IndexedDbBackendInner.write_page
    rw [mem_write_page_not_write s.mem p h]

theorem MemoryBackendInner.ext_fields (a b : MemoryBackendInner)
    (h1 : a.page_size = b.page_size) (h2 : a.snapshot = b.snapshot)
    (h3 : a.transaction = b.transaction) (h4 : a.state_map = b.state_map) :
    a = b := by
  cases a; cases b; simp_all

theorem write_page_txn_isSome (s : MemoryBackendInner) (p : RawPage)
    (sid : Option Nat) (h : s.transaction.isSome = true) :
    ((s.write_page p sid).2).transaction.isSome = true := by
  unfold MemoryBackendInner.write_page
  split
  · exact h
  · split
    · split
      · rfl
      · exact h
    · exact h

theorem writeAll_txn_isSome (ps : List RawPage) (s : MemoryBackendInner)
    (h : s.transaction.isSome = true) :
    (writeAll s ps).transaction.isSome = true := by
  induction ps generalizing s with
  | nil => exact h
  | cons p ps ih =>
    show (writeAll (s.write_page p none).2 ps).transaction.isSome = true
    exact ih _ (write_page_txn_isSome s p none h)

theorem mem_rollback_restores (s : MemoryBackendInner) (ty : TransactionType)
    (ps : List RawPage) (hs : s.transaction = none) :
    (writeAll (s.start_transaction ty).2 ps).rollback = (.ok (), s) := by
  rw [start_transaction_none s ty hs]
  show (writeAll { s with transaction := some (Transaction.new ty s.snapshot) } ps).rollback
      = (.ok (), s)
  have hsome : (writeAll { s with
      transaction := some (Transaction.new ty s.snapshot) } ps).transaction.isSome = true :=
    writeAll_txn_isSome ps _ rfl
  obtain ⟨hsm, hps, hsnap⟩ := writeAll_components ps
    { s with transaction := some (Transaction.new ty s.snapshot) }
  unfold MemoryBackendInner.rollback
  cases htx : (writeAll { s with
      transaction := some (Transaction.new ty s.snapshot) } ps).transaction with
  | none =>
    rw [htx] at hsome
    exact absurd hsome (by simp)
  | some t =>
    have heq : ({ writeAll { s with
        transaction := some (Transaction.new ty s.snapshot) } ps with
        transaction := none } : MemoryBackendInner) = s := by
      apply MemoryBackendInner.ext_fields
      · exact hps
      · exact hsnap
      · exact hs.symm
      · exact hsm
    rw [heq]

theorem mem_rollback_none (s : MemoryBackendInner) (hs : s.transaction = none) :
    s.rollback = (.error .RollbackNotInTransaction, s) := by
  unfold MemoryBackendInner.rollback
  rw [hs]

theorem cache_coherent_of_empty (s : FileBackendInner)
    (h : s.page_cache = []) : s.cache_coherent := by
  intro pid page hlk
  rw [h] at hlk
  simp [alLookup] at hlk

theorem file_read_main_fst (s : FileBackendInner) (hcoh : s.cache_coherent)
    (pid : Nat) : (s.read_page pid none).1 = .ok (s.main_view pid) := by
  show (s.read_page_main pid).1 = _
  unfold FileBackendInner.read_page_main
  cases hc : alLookup s.page_cache pid with
  | some page => simp [hcoh pid page hc]
  | none =>
    unfold FileBackendInner.main_view
    cases hj : s.journal_manager.read_page_main pid with
    | some page => simp
    | none => simp

theorem main_view_congr (a b : FileBackendInner)
    (h1 : a.journal_manager.pending_map = b.journal_manager.pending_map)
    (h2 : a.journal_manager.offset_map = b.journal_manager.offset_map)
    (h3 : a.file = b.file) (h4 : a.page_size = b.page_size) (pid : Nat) :
    a.main_view pid = b.main_view pid := by
  unfold FileBackendInner.main_view JournalManager.read_page_main
    FileBackendInner.read_page_from_main_file
  rw [h1, h2, h3, h4]

theorem file_read_session_fst_congr (a b : FileBackendInner)
    (h1 : a.state_map = b.state_map) (h3 : a.file = b.file)
    (h4 : a.page_size = b.page_size) (pid sid : Nat) :
    (a.read_page pid (some sid)).1 = (b.read_page pid (some sid)).1 := by
  unfold FileBackendInner.read_page
  rw [h1]
  cases hlk : alLookup b.state_map sid with
  | none => simp [hlk]
  | some st =>
    cases hses : JournalManager.read_page_session st pid with
    | some page => simp [hlk, hses]
    | none =>
      simp only [hlk, hses]
      show Except.ok (a.read_page_from_main_file pid)
        = Except.ok (b.read_page_from_main_file pid)
      unfold FileBackendInner.read_page_from_main_file
      rw [h3, h4]

theorem append_raw_page_components (j : JournalManager) (p : RawPage) :
    (j.append_raw_page p).2.offset_map = j.offset_map ∧
    (j.append_raw_page p).2.committed_db_size = j.committed_db_size ∧
    (j.append_raw_page p).2.txn = j.txn ∧
    (j.append_raw_page p).2.page_size = j.page_size := by
  unfold JournalManager.append_raw_page
  split <;> exact ⟨rfl, rfl, rfl, rfl⟩

theorem file_write_page_components (s : FileBackendInner) (p : RawPage)
    (sid : Option Nat) :
    (s.write_page p sid).2.file = s.file ∧
    (s.write_page p sid).2.config = s.config ∧
    (s.write_page p sid).2.page_size = s.page_size ∧
    (s.write_page p sid).2.state_map = s.state_map ∧
    (s.write_page p sid).2.journal_manager.offset_map = s.journal_manager.offset_map ∧
    (s.write_page p sid).2.journal_manager.committed_db_size
      = s.journal_manager.committed_db_size ∧
    (s.write_page p sid).2.journal_manager.txn = s.journal_manager.txn := by
  obtain ⟨ha1, ha2, ha3, ha4⟩ := append_raw_page_components s.journal_manager p
  unfold FileBackendInner.write_page
  split
  · exact ⟨rfl, rfl, rfl, rfl, rfl, rfl, rfl⟩
  · split
    all_goals rename_i x j' heq
    all_goals have hj : j' = (s.journal_manager.append_raw_page p).2 := by rw [heq]
    all_goals subst hj
    all_goals exact ⟨rfl, rfl, rfl, rfl, ha1, ha2, ha3⟩

theorem writeAllFile_components (ps : List RawPage) (s : FileBackendInner) :
    (writeAllFile s ps).file = s.file ∧
    (writeAllFile s ps).config = s.config ∧
    (writeAllFile s ps).page_size = s.page_size ∧
    (writeAllFile s ps).state_map = s.state_map ∧
    (writeAllFile s ps).journal_manager.offset_map = s.journal_manager.offset_map ∧
    (writeAllFile s ps).journal_manager.committed_db_size
      = s.journal_manager.committed_db_size ∧
    (writeAllFile s ps).journal_manager.txn = s.journal_manager.txn := by
  induction ps generalizing s with
  | nil => exact ⟨rfl, rfl, rfl, rfl, rfl, rfl, rfl⟩
  | cons p ps ih =>
    show (writeAllFile (s.write_page p none).2 ps).file = _ ∧ _
    obtain ⟨i1, i2, i3, i4, i5, i6, i7⟩ := ih (s.write_page p none).2
    obtain ⟨w1, w2, w3, w4, w5, w6, w7⟩ := file_write_page_components s p none
    exact ⟨i1.trans w1, i2.trans w2, i3.trans w3, i4.trans w4, i5.trans w5,
      i6.trans w6, i7.trans w7⟩

theorem file_start_transaction_none (s : FileBackendInner)
    (ty : TransactionType) (hj : s.journal_manager.txn = none) :
    s.start_transaction ty = (.ok (), { s with journal_manager := { s.journal_manager with txn := some ty, pending_db_size := s.journal_manager.committed_db_size } }) := by
  unfold FileBackendInner.start_transaction JournalManager.start_transaction
  rw [hj]

theorem file_rollback_components (s : FileBackendInner) (ty : TransactionType)
    (h : s.journal_manager.txn = some ty) :
    (s.rollback).1 = .ok () ∧
    (s.rollback).2.file = s.file ∧
    (s.rollback).2.page_size = s.page_size ∧
    (s.rollback).2.state_map = s.state_map ∧
    (s.rollback).2.page_cache = [] ∧
    (s.rollback).2.journal_manager.txn = none ∧
    (s.rollback).2.journal_manager.pending_map = [] ∧
    (s.rollback).2.journal_manager.offset_map = s.journal_manager.offset_map ∧
    (s.rollback).2.journal_manager.committed_db_size
      = s.journal_manager.committed_db_size := by
  unfold FileBackendInner.rollback JournalManager.rollback
  rw [h]
  exact ⟨rfl, rfl, rfl, rfl, rfl, rfl, rfl, rfl, rfl⟩

theorem file_rollback_none (s : FileBackendInner)
    (hj : s.journal_manager.txn = none) :
    s.rollback = (.error .RollbackNotInTransaction, s) := by
  unfold FileBackendInner.rollback JournalManager.rollback
  rw [hj]

theorem file_rollback_restores (s : FileBackendInner) (ty : TransactionType)
    (ps : List RawPage) (hj : s.journal_manager.txn = none)
    (hpend : s.journal_manager.pending_map = []) (hcoh : s.cache_coherent) :
    ((writeAllFile (s.start_transaction ty).2 ps).rollback).1 = .ok () ∧
    (∀ pid, (((writeAllFile (s.start_transaction ty).2 ps).rollback).2.read_page
        pid none).1 = (s.read_page pid none).1) ∧
    (∀ pid sid, (((writeAllFile (s.start_transaction ty).2 ps).rollback).2.read_page
        pid (some sid)).1 = (s.read_page pid (some sid)).1) ∧
    ((writeAllFile (s.start_transaction ty).2 ps).rollback).2.db_size = s.db_size := by
  rw [file_start_transaction_none s ty hj]
  show ((writeAllFile { s with journal_manager := { s.journal_manager with txn := some ty, pending_db_size := s.journal_manager.committed_db_size } } ps).rollback).1 = .ok () ∧ _
  obtain ⟨w1, w2, w3, w4, w5, w6, w7⟩ := writeAllFile_components ps
    { s with journal_manager := { s.journal_manager with txn := some ty, pending_db_size := s.journal_manager.committed_db_size } }
  obtain ⟨r1, r2, r3, r4, r5, r6, r7, r8, r9⟩ := file_rollback_components
    (writeAllFile { s with journal_manager := { s.journal_manager with txn := some ty, pending_db_size := s.journal_manager.committed_db_size } } ps) ty w7
  refine ⟨r1, ?_, ?_, ?_⟩
  · intro pid
    rw [file_read_main_fst _ (cache_coherent_of_empty _ r5) pid,
      file_read_main_fst s hcoh pid]
    have hmv := main_view_congr _ s (by rw [r7, hpend]) (by rw [r8, w5])
      (by rw [r2, w1]) (by rw [r3, w3]) pid
    rw [hmv]
  · intro pid sid
    exact file_read_session_fst_congr _ s (by rw [r4, w4]) (by rw [r2, w1])
      (by rw [r3, w3]) pid sid
  · unfold FileBackendInner.db_size JournalManager.record_db_size
    rw [r6, hj, r9, w6]

/-- **C5.** `rollback` after a write transaction and any sequence of
`write_page` calls restores the observable state exactly as before
`start_transaction` — on the memory backend the entire state is restored; on
the file backend (idle journal, advisory cache) every `read_page` result and
`db_size` are restored — and `rollback` with no active transaction returns
`RollbackNotInTransaction` leaving the state unchanged, on both backends. -/
theorem c5_rollback_restores_state :
    (∀ (s : MemoryBackendInner) (ty : TransactionType) (ps : List RawPage),
      s.transaction = none →
      (writeAll (s.start_transaction ty).2 ps).rollback = (.ok (), s)) ∧
    (∀ (s : MemoryBackendInner), s.transaction = none →
      s.rollback = (.error .RollbackNotInTransaction, s)) ∧
    (∀ (s : FileBackendInner) (ty : TransactionType) (ps : List RawPage),
      s.journal_manager.txn = none →
      s.journal_manager.pending_map = [] →
      s.cache_coherent →
      (((writeAllFile (s.start_transaction ty).2 ps).rollback).1 = .ok () ∧
       (∀ pid, (((writeAllFile (s.start_transaction ty).2 ps).rollback).2.read_page
           pid none).1 = (s.read_page pid none).1) ∧
       (∀ pid sid, (((writeAllFile (s.start_transaction ty).2 ps).rollback).2.read_page
           pid (some sid)).1 = (s.read_page pid (some sid)).1) ∧
       ((writeAllFile (s.start_transaction ty).2 ps).rollback).2.db_size = s.db_size)) ∧
    (∀ (s : FileBackendInner), s.journal_manager.txn = none →
      s.rollback = (.error .RollbackNotInTransaction, s)) :=
  ⟨mem_rollback_restores, mem_rollback_none, file_rollback_restores,
    file_rollback_none⟩

theorem file_commit_eq (s : FileBackendInner) :
    s.commit =
      if s.config.journal_full_size ≤ (s.journal_manager.commitJ).len ∧
          s.state_map.isEmpty = true then
        (.ok (), { s with journal_manager := ((s.journal_manager.commitJ).checkpoint_journal s.file).1, file := ((s.journal_manager.commitJ).checkpoint_journal s.file).2 })
      else
        (.ok (), { s with journal_manager := s.journal_manager.commitJ }) := rfl

/-- **C6.** File backend `commit` runs a checkpoint exactly when, after the
commit marker is written, the journal length has reached `journal_full_size`
and the session table is empty — the checkpoint state applies the offset map
to the main file, clears it and truncates the journal — and in particular no
checkpoint ever runs at commit while a session is alive (the main file is
untouched then). -/
theorem c6_commit_checkpoint_gating (s : FileBackendInner) :
    ((s.config.journal_full_size ≤ (s.journal_manager.commitJ).len ∧
        s.state_map = []) →
      s.commit = (.ok (), { s with journal_manager := ((s.journal_manager.commitJ).checkpoint_journal s.file).1, file := ((s.journal_manager.commitJ).checkpoint_journal s.file).2 }) ∧
      (s.commit).2.journal_manager.len = 0 ∧
      (s.commit).2.journal_manager.offset_map = []) ∧
    (¬ (s.config.journal_full_size ≤ (s.journal_manager.commitJ).len ∧
        s.state_map = []) →
      s.commit = (.ok (), { s with journal_manager := s.journal_manager.commitJ })) ∧
    (s.state_map ≠ [] →
      s.commit = (.ok (), { s with journal_manager := s.journal_manager.commitJ }) ∧
      (s.commit).2.file = s.file) := by
  refine ⟨?_, ?_, ?_⟩
  · intro hc
    have hcommit : s.commit = (.ok (), { s with journal_manager := ((s.journal_manager.commitJ).checkpoint_journal s.file).1, file := ((s.journal_manager.commitJ).checkpoint_journal s.file).2 }) := by
      rw [file_commit_eq, if_pos ⟨hc.1, by rw [hc.2]; rfl⟩]
    refine ⟨hcommit, ?_, ?_⟩
    · rw [hcommit]
      rfl
    · rw [hcommit]
      rfl
  · intro hc
    rw [file_commit_eq, if_neg ?_]
    intro hand
    exact hc ⟨hand.1, List.isEmpty_iff.mp hand.2⟩
  · intro hne
    have hcommit : s.commit
        = (.ok (), { s with journal_manager := s.journal_manager.commitJ }) := by
      rw [file_commit_eq, if_neg ?_]
      intro hand
      exact hne (List.isEmpty_iff.mp hand.2)
    exact ⟨hcommit, by rw [hcommit]⟩

/-- **C7.** The claim says the version bytes are compared only when the
`check_db_version` configuration flag is true and that the check is skipped
when it is false.  The code's `open` passes the literal `true` to `init_db`
instead of `config.check_db_version`, so the version is checked regardless:
`init_db` itself honours the flag (second conjunct), but `openInit` under a
configuration with `check_db_version = false` still fails with
`VersionMismatch` carrying the expected and actual 4-byte versions (third
conjunct). -/
theorem c7_version_check_ignores_config_flag :
    (Config.mk 16 1000 false).check_db_version = false ∧
    FileBackendInner.init_db mismatchedFile 64 16 false
      = .ok ({ db_file_size := 64 }, mismatchedFile) ∧
    FileBackendInner.openInit mismatchedFile 64 (Config.mk 16 1000 false)
      = .error (.VersionMismatch DATABASE_VERSION [9, 9, 9, 9]) := by
  refine ⟨rfl, ?_, ?_⟩ <;> decide

/-- **C8 counterexample.** On a fresh memory backend with a *read*
transaction active — so no write transaction is active — `set_db_size`
changes the value `db_size()` returns (from 16 to 999), refuting the claim
that the size is adjusted only within an active write transaction. -/
theorem c8_counterexample_set_db_size_read_txn :
    ((MemoryBackendInner.new 8 2).start_transaction
        TransactionType.read).2.transaction_type = some TransactionType.read ∧
    ((MemoryBackendInner.new 8 2).start_transaction
        TransactionType.read).2.db_size = 16 ∧
    ((((MemoryBackendInner.new 8 2).start_transaction
        TransactionType.read).2.set_db_size 999).2.db_size = 999) := by
  decide

/-- **C8 amended.** `set_db_size` adjusts the pending database size within
ANY active transaction (write **or read**); with no transaction at all it
changes nothing (returning ok), and `db_size()` outside any transaction
returns the size recorded by the last committed snapshot. -/
theorem c8_amended_set_db_size (s : MemoryBackendInner) (n : Nat) :
    (s.transaction = none →
      s.set_db_size n = (.ok (), s) ∧ s.db_size = s.snapshot.db_file_size) ∧
    (∀ t, s.transaction = some t →
      (s.set_db_size n).1 = .ok () ∧ (s.set_db_size n).2.db_size = n) := by
  constructor
  · intro h
    simp [MemoryBackendInner.set_db_size, MemoryBackendInner.db_size, h]
  · intro t h
    simp [MemoryBackendInner.set_db_size, MemoryBackendInner.db_size,
      DbSnapshotDraft.set_db_file_size, h]

/-- **C9.** IndexedDB backend `commit` encodes the transaction's dirty-page
set as a single store frame — one `page_ids` entry and one compressed page
payload per dirty page, in matching order (their zip is the map of the
dirty-page list), plus the backend's session id in `sid` — and appends
exactly that frame to the `db_logs` store. -/
theorem c9_indexeddb_commit_store_frame (compress : List Nat → List Nat)
    (s : IndexedDbBackendInner) (t : Transaction)
    (h : s.mem.transaction = some t) :
    (IndexedDbBackendInner.commit compress s).1 = .ok () ∧
    (IndexedDbBackendInner.commit compress s).2.db_logs =
      s.db_logs ++ [{ pages := t.draft.overlay.map (fun kv => compress kv.2.data),
                      page_ids := t.draft.overlay.map (fun kv => kv.1),
                      sid := s.session_id }] ∧
    (t.draft.overlay.map (fun kv => kv.1)).zip
        (t.draft.overlay.map (fun kv => compress kv.2.data)) =
      t.draft.overlay.map (fun kv => (kv.1, compress kv.2.data)) := by
  have hcommit : s.mem.commit =
      (.ok ⟨t.ty, t.draft, t.draft.overlay⟩,
        { s.mem with snapshot := (t.draft.commitDraft).1, transaction := none }) := by
    unfold MemoryBackendInner.commit MemoryBackendInner.merge_transaction
    rw [h]
    rfl
  unfold IndexedDbBackendInner.commit
  simp only [hcommit]
  unfold IndexedDbBackendInner.write_transaction_to_indexeddb
    IndexedDbBackendInner.transaction_to_store_frame
  exact ⟨rfl, rfl, List.zip_map' _ _ _⟩

/-- **C10.** On the memory backend `upgrade_read_transaction_to_write` always
succeeds and unconditionally installs a fresh write transaction whose draft
is based on the last committed snapshot with an empty overlay and no dirty
pages — it needs no active read transaction, and any pending writes of a
previously active write transaction are discarded with it. -/
theorem c10_upgrade_unconditional (s : MemoryBackendInner) :
    s.upgrade_read_transaction_to_write =
      (.ok (), { s with transaction := some (Transaction.new TransactionType.write s.snapshot) }) ∧
    (s.upgrade_read_transaction_to_write).2.transaction =
      some ⟨TransactionType.write, ⟨s.snapshot, [], s.snapshot.db_file_size⟩, []⟩ :=
  ⟨rfl, rfl⟩

/-- Witness for C1 at a fresh backend and two concrete pages. -/
theorem c1_round_trip_witness :
    ((writeAll ((MemoryBackendInner.new 8 2).start_transaction
        TransactionType.write).2 [pageA, pageB]).commit).2.read_page 2 none
      = .ok pageB :=
  c1_memory_write_commit_read_round_trip (MemoryBackendInner.new 8 2)
    [pageA, pageB] rfl (by decide) pageB (by decide)

/-- Witness for C3: a fresh backend (db size 16, pages of 8 bytes) zero-fills
page 1, panics on page 99, and behaves the same through a session. -/
theorem c3_read_missing_witness :
    (MemoryBackendInner.new 8 2).read_page 1 none = .ok (RawPage.new 1 8) ∧
    (MemoryBackendInner.new 8 2).read_page 99 none
      = .error (DbErr.PanicPageNotExist 99) ∧
    ((MemoryBackendInner.new 8 2).new_session 7).2.read_page 99 (some 7)
      = .error DbErr.PanicUnwrapNone := by
  have hnone : (MemoryBackendInner.new 8 2).transaction = none := rfl
  refine ⟨?_, ?_, ?_⟩
  · have h := (c3_memory_read_missing_page (MemoryBackendInner.new 8 2) 1).1
      (fun t ht => by rw [hnone] at ht; cases ht) (by decide)
    exact h.trans (if_pos (by decide))
  · have h := (c3_memory_read_missing_page (MemoryBackendInner.new 8 2) 99).1
      (fun t ht => by rw [hnone] at ht; cases ht) (by decide)
    exact h.trans (if_neg (by decide))
  · have h := (c3_memory_read_missing_page
      ((MemoryBackendInner.new 8 2).new_session 7).2 99).2 7
      (Transaction.new TransactionType.read (MemoryBackendInner.new 8 2).snapshot)
      (by decide) (by decide)
    exact h.trans (if_neg (by decide))

/-- Witness for C4 on concrete idle states of all three backends. -/
theorem c4_write_page_witness :
    (MemoryBackendInner.new 8 2).write_page pageA none
      = (.error .CannotWriteDbWithoutTransaction, MemoryBackendInner.new 8 2) ∧
    fileIdle.write_page pageA none
      = (.error .CannotWriteDbWithoutTransaction, fileIdle) ∧
    idbIdle.write_page pageA none
      = (.error .CannotWriteDbWithoutTransaction, idbIdle) := by
  obtain ⟨h1, h2, h3⟩ := c4_write_page_requires_write_transaction
  exact ⟨h1 _ _ (by decide), h2 _ _ (by decide), h3 _ _ (by decide)⟩

/-- Witness for C5 at concrete states: memory rollback restores the fresh
backend exactly; file rollback restores the observable read; both error
without a transaction. -/
theorem c5_rollback_witness :
    (writeAll ((MemoryBackendInner.new 8 2).start_transaction
        TransactionType.write).2 [pageA]).rollback
      = (.ok (), MemoryBackendInner.new 8 2) ∧
    (MemoryBackendInner.new 8 2).rollback
      = (.error .RollbackNotInTransaction, MemoryBackendInner.new 8 2) ∧
    (((writeAllFile (fileIdle.start_transaction TransactionType.write).2
        [pageA]).rollback).2.read_page 1 none).1 = (fileIdle.read_page 1 none).1 ∧
    fileIdle.rollback = (.error .RollbackNotInTransaction, fileIdle) := by
  obtain ⟨h1, h2, h3, h4⟩ := c5_rollback_restores_state
  refine ⟨h1 _ _ _ rfl, h2 _ rfl, ?_, h4 _ rfl⟩
  exact (h3 fileIdle TransactionType.write [pageA] rfl rfl
    (cache_coherent_of_empty _ rfl)).2.1 1

/-- Witness for C6: with a full journal the commit checkpoints when no
session is alive, and does not when one is. -/
theorem c6_checkpoint_witness :
    fileFull.commit = (.ok (), { fileFull with journal_manager := ((fileFull.journal_manager.commitJ).checkpoint_journal fileFull.file).1, file := ((fileFull.journal_manager.commitJ).checkpoint_journal fileFull.file).2 }) ∧
    fileWithSession.commit = (.ok (), { fileWithSession with journal_manager := fileWithSession.journal_manager.commitJ }) := by
  exact ⟨((c6_commit_checkpoint_gating fileFull).1 (by decide)).1,
    ((c6_commit_checkpoint_gating fileWithSession).2.2 (by decide)).1⟩

/-- Witness for the amended C8 at a fresh backend (no transaction) and at a
read transaction. -/
theorem c8_amended_witness :
    ((MemoryBackendInner.new 8 2).set_db_size 999
        = (.ok (), MemoryBackendInner.new 8 2) ∧
      (MemoryBackendInner.new 8 2).db_size
        = (MemoryBackendInner.new 8 2).snapshot.db_file_size) ∧
    ((((MemoryBackendInner.new 8 2).start_transaction
        TransactionType.read).2.set_db_size 999).1 = .ok () ∧
      (((MemoryBackendInner.new 8 2).start_transaction
        TransactionType.read).2.set_db_size 999).2.db_size = 999) :=
  ⟨(c8_amended_set_db_size (MemoryBackendInner.new 8 2) 999).1 rfl,
    (c8_amended_set_db_size
      (((MemoryBackendInner.new 8 2).start_transaction TransactionType.read).2) 999).2
      (Transaction.new TransactionType.read (MemoryBackendInner.new 8 2).snapshot) rfl⟩

/-- Witness for C9: committing one dirty page appends one frame whose single
`page_ids` entry and single payload line up, tagged with the session id. -/
theorem c9_store_frame_witness :
    (IndexedDbBackendInner.commit (fun bytes => bytes) idbWithWrite).2.db_logs
      = [{ pages := [pageA.data], page_ids := [1], sid := "abc123" }] := by
  have h := (c9_indexeddb_commit_store_frame (fun bytes => bytes) idbWithWrite
    txnWithWrite (by decide)).2.1
  rw [h]
  decide
